import Mathlib

/-!
Shallow embedding of the two Flask demo variants (`src/flask.py`, the first
variant, and `src/flask2.py`, the second variant).

Both files expose one route handler `index` over shared mutable module state:
a pipeline cache dictionary, and (in the second variant) the task-to-model
table `MODEL_CHOICES`.  External effects (the `pipeline(...)` constructor of
the transformers library and the inference call on a loaded pipeline) are
modelled as oracle functions passed in as parameters, and every actual call to
one of them is recorded in an event trace, so that "no inference call occurs"
is a statement about the trace.  Python exceptions are modelled with `Except`:
an `Except.error` escaping `index` is an exception the handler did not catch
(the web framework then replies with a generic 500 page, which is a crash of
the handler, not a rendered error message).

Python dictionaries are modelled as association lists without duplicate keys:
`alGet` is `d.get(k)` / `k in d`, `alSet` is `d[k] = v` (replace in place, or
append for a fresh key).
-/

/-- The kinds of Python exception the embedded code can raise. -/
inductive PyErr where
  | valueError (msg : String)
  | keyError (key : String)
  | typeError (msg : String)
  | other (msg : String)
deriving Repr, DecidableEq

/-- One inference invocation, with the loaded pipeline object it is made on
and the exact arguments of the Python call site. -/
inductive Call (Pipe : Type) where
  | sent (p : Pipe) (text : String)
  | summ (p : Pipe) (text : String) (maxLength minLength : Nat) (doSample : Bool)
  | zeroShot (p : Pipe) (text : String) (labels : List String)
deriving Repr, DecidableEq

/-- Trace events: a `pipeline(task, model, ...)` constructor call, or an
inference call on a loaded pipeline. -/
inductive Event (Pipe : Type) where
  | load (task model : String)
  | infer (c : Call Pipe)
deriving Repr, DecidableEq

/-- `true` exactly on inference events. -/
def Event.isInfer {Pipe : Type} : Event Pipe → Bool
  | .infer _ => true
  | .load _ _ => false

/-- Dictionary read: Python `d.get(k)` (and `k in d` via `isSome`). -/
def alGet {κ α : Type} [DecidableEq κ] (k : κ) : List (κ × α) → Option α
  | [] => none
  | (k', v) :: rest => if k' = k then some v else alGet k rest

/-- Dictionary write: Python `d[k] = v`; replaces an existing binding in
place, appends a fresh key at the end (Python dicts keep insertion order). -/
def alSet {κ α : Type} [DecidableEq κ] (k : κ) (v : α) : List (κ × α) → List (κ × α)
  | [] => [(k, v)]
  | (k', v') :: rest => if k' = k then (k, v) :: rest else (k', v') :: alSet k v rest

/-- Python `str.strip()` with no argument: remove leading and trailing
whitespace characters. -/
def pyStrip (s : String) : String :=
  ⟨((s.data.dropWhile Char.isWhitespace).reverse.dropWhile Char.isWhitespace).reverse⟩

/-- Helper for `pySplitComma`: `cur` holds the characters of the current
field in reverse. -/
def splitCommaAux (cur : List Char) : List Char → List (List Char)
  | [] => [cur.reverse]
  | c :: rest =>
    if c = ',' then cur.reverse :: splitCommaAux [] rest
    else splitCommaAux (c :: cur) rest

/-- Python `s.split(",")`: cut at every comma, keeping empty fields
(`"".split(",") == [""]`, `"a,,b".split(",") == ["a", "", "b"]`). -/
def pySplitComma (s : String) : List String :=
  (splitCommaAux [] s.data).map fun l => ⟨l⟩

/-- The label parsing shared by both variants
(`[lbl.strip() for lbl in candidate_labels.split(",") if lbl.strip()]`,
`src/flask.py` line 47 and `src/flask2.py` line 154): split on commas, keep
the stripped field whenever it is non-empty (Python string truthiness). -/
def parseLabels (s : String) : List String :=
  (pySplitComma s).filterMap fun l => if pyStrip l = "" then none else some (pyStrip l)

/-- An HTTP request as the handlers read it: the method and the four form
fields; `none` models a field absent from the form data
(`request.form.get(name)` returns `None`). -/
structure Request where
  method : String
  task : Option String
  input_text : Option String
  labels : Option String
  model_override : Option String
deriving Repr, DecidableEq

/-! ## First variant: `src/flask.py` -/

/-- The pipeline cache of the first variant (`pipelines_cache`, line 12).
Its keys are whatever Python value `request.form.get("task")` produced, so a
key is an `Option String` (`none` is Python `None`). -/
abbrev Cache1 (Pipe : Type) := List (Option String × Pipe)

/-- `get_pipeline` of `src/flask.py` (lines 14-26).  If the task is not in
the cache, each of the three known tasks constructs its pipeline with its
hard-coded model and stores it; any other task stores nothing.  The final
`return pipelines_cache[task]` raises `KeyError` when the key is absent.
A `pipeline(...)` failure propagates before any store happens.
Returns (result, cache after, events). -/
def get_pipeline1 {Pipe : Type} (load : String → String → Except PyErr Pipe)
    (task : Option String) (cache : Cache1 Pipe) :
    Except PyErr Pipe × Cache1 Pipe × List (Event Pipe) :=
  match alGet task cache with
  | some p => (.ok p, cache, [])
  | none =>
    let tryLoad (t m : String) : Except PyErr Pipe × Cache1 Pipe × List (Event Pipe) :=
      match load t m with
      | .error e => (.error e, cache, [.load t m])
      | .ok p => (.ok p, alSet task p cache, [.load t m])
    if task = some "sentiment-analysis" then
      tryLoad "sentiment-analysis" "distilbert-base-uncased-finetuned-sst-2-english"
    else if task = some "summarization" then
      tryLoad "summarization" "sshleifer/distilbart-cnn-12-6"
    else if task = some "zero-shot-classification" then
      tryLoad "zero-shot-classification" "facebook/bart-large-mnli"
    else
      (.error (.keyError (match task with | none => "None" | some t => t)), cache, [])

/-- The template bindings the first variant renders
(`render_template_string(html, ...)`, lines 104-107).  This is the complete
set of dynamic values on the page; the template of `src/flask.py` has no
error block and no error binding, so a page rendered by this variant never
carries an error message. -/
structure Response1 (Val : Type) where
  result : Option Val
  input_text : String
  selected_task : Option String
  candidate_labels : String
deriving Repr, DecidableEq

/-- `index` of `src/flask.py` (lines 29-107).  On POST with non-blank input
it calls `get_pipeline` (whose `KeyError` or load failure propagates uncaught:
there is no try/except in this variant), then dispatches on the task; a task
matching no branch leaves `result = None` and renders normally.  On POST with
blank input it renders normally with no result and no message.  On GET it
renders the empty form.  Inference exceptions propagate uncaught.
Returns (rendered page or uncaught exception, cache after, events). -/
def index1 {Pipe Val : Type} (load : String → String → Except PyErr Pipe)
    (run : Call Pipe → Except PyErr Val)
    (req : Request) (cache : Cache1 Pipe) :
    Except PyErr (Response1 Val) × Cache1 Pipe × List (Event Pipe) :=
  if req.method = "POST" then
    let selected_task := req.task
    let input_text := req.input_text.getD ""
    let candidate_labels := req.labels.getD ""
    if pyStrip input_text ≠ "" then
      match get_pipeline1 load selected_task cache with
      | (.error e, c', ev) => (.error e, c', ev)
      | (.ok nlp, c', ev) =>
        let finish (c : Call Pipe) :
            Except PyErr (Response1 Val) × Cache1 Pipe × List (Event Pipe) :=
          match run c with
          | .error e => (.error e, c', ev ++ [.infer c])
          | .ok v =>
            (.ok ⟨some v, input_text, selected_task, candidate_labels⟩, c', ev ++ [.infer c])
        if selected_task = some "sentiment-analysis" then
          finish (.sent nlp input_text)
        else if selected_task = some "summarization" then
          finish (.summ nlp input_text 80 20 false)
        else if selected_task = some "zero-shot-classification" then
          finish (.zeroShot nlp input_text (parseLabels candidate_labels))
        else
          (.ok ⟨none, input_text, selected_task, candidate_labels⟩, c', ev)
    else
      (.ok ⟨none, input_text, selected_task, candidate_labels⟩, cache, [])
  else
    (.ok ⟨none, "", some "sentiment-analysis", ""⟩, cache, [])

/-! ## Second variant: `src/flask2.py` -/

/-- The shared mutable module state of the second variant: the `pipelines`
cache (line 10) and the `MODEL_CHOICES` table (lines 13-19). -/
structure St2 (Pipe : Type) where
  pipelines : List (String × Pipe)
  modelChoices : List (String × String)
deriving Repr, DecidableEq

/-- The initial contents of `MODEL_CHOICES` (`src/flask2.py` lines 13-19). -/
def MODEL_CHOICES : List (String × String) :=
  [("sentiment-analysis", "distilbert-base-uncased-finetuned-sst-2-english"),
   ("summarization", "sshleifer/distilbart-cnn-12-6"),
   ("zero-shot-classification", "facebook/bart-large-mnli")]

/-- The module state at process start: empty cache, default model table. -/
def initSt2 {Pipe : Type} : St2 Pipe := ⟨[], MODEL_CHOICES⟩

/-- `get_pipeline` of `src/flask2.py` (lines 21-45).  Cache hit returns the
stored object at once.  On a miss, a task whose `MODEL_CHOICES.get` yields
`None` or `""` (both falsy in Python) raises `ValueError("Unknown task: ...")`;
otherwise each of the three known tasks calls `pipeline(task, model, device=-1)`
(each branch passes its own literal, equal to `task` in that branch), any other
task raises `ValueError("Unsupported task")`; a construction failure is logged
and re-raised, and only a successful construction is stored in the cache.
Returns (result, state after, events). -/
def get_pipeline2 {Pipe : Type} (load : String → String → Except PyErr Pipe)
    (task : String) (s : St2 Pipe) :
    Except PyErr Pipe × St2 Pipe × List (Event Pipe) :=
  match alGet task s.pipelines with
  | some p => (.ok p, s, [])
  | none =>
    match alGet task s.modelChoices with
    | none => (.error (.valueError ("Unknown task: " ++ task)), s, [])
    | some model =>
      if model = "" then
        (.error (.valueError ("Unknown task: " ++ task)), s, [])
      else if task = "sentiment-analysis" ∨ task = "summarization" ∨
          task = "zero-shot-classification" then
        match load task model with
        | .error e => (.error e, s, [.load task model])
        | .ok p => (.ok p, { s with pipelines := alSet task p s.pipelines }, [.load task model])
      else
        (.error (.valueError "Unsupported task"), s, [])

/-- The user-facing error string built by the except-handler of
`src/flask2.py` line 164:
`error = str(e) + "\n\n" + traceback.format_exc().splitlines()[-10:]`.
In Python, `traceback.format_exc().splitlines()[-10:]` is a `list` of
strings, and concatenating a `str` with a `list` unconditionally raises
`TypeError: can only concatenate str (not "list") to str` — whatever the
caught exception and the traceback contents were, this line itself raises
before any error page can be rendered. -/
def formatUserError (_e : PyErr) : Except PyErr String :=
  .error (.typeError "can only concatenate str (not \"list\") to str")

/-- The template bindings the second variant renders
(`render_template_string(HTML, ...)`, lines 167-174; the constant `busy=False`
binding is omitted). -/
structure Response2 (Val : Type) where
  result : Option Val
  error : Option String
  input_text : String
  selected_task : String
  candidate_labels : String
  model_override : String
deriving Repr, DecidableEq

/-- `index` of `src/flask2.py` (lines 122-174).  On POST: the task falls back
to `"sentiment-analysis"` when the field is missing or empty (line 132,
`request.form.get("task") or selected_task`); input text, labels and the
model override are stripped; blank input renders the
"Please provide some input text." error without touching the pipeline
machinery.  Otherwise, inside `try`: a non-empty override is first written
into `MODEL_CHOICES[selected_task]`, the pipeline is fetched, and the
task-specific inference call runs (zero-shot first parses the labels and
raises `ValueError` when none survive).  Any exception reaching the `except`
block is logged and then re-formatted by `formatUserError`, whose own
`TypeError` escapes the handler uncaught.
Returns (rendered page or uncaught exception, state after, events). -/
def index2 {Pipe Val : Type} (load : String → String → Except PyErr Pipe)
    (run : Call Pipe → Except PyErr Val)
    (req : Request) (s : St2 Pipe) :
    Except PyErr (Response2 Val) × St2 Pipe × List (Event Pipe) :=
  if req.method = "POST" then
    let t0 := req.task.getD ""
    let selected_task := if t0 = "" then "sentiment-analysis" else t0
    let input_text := pyStrip (req.input_text.getD "")
    let candidate_labels := pyStrip (req.labels.getD "")
    let model_override := pyStrip (req.model_override.getD "")
    if input_text = "" then
      (.ok ⟨none, some "Please provide some input text.", input_text, selected_task,
            candidate_labels, model_override⟩, s, [])
    else
      let s1 := if model_override ≠ "" then
        { s with modelChoices := alSet selected_task model_override s.modelChoices }
      else s
      let excepted (e : PyErr) (s' : St2 Pipe) (ev : List (Event Pipe)) :
          Except PyErr (Response2 Val) × St2 Pipe × List (Event Pipe) :=
        match formatUserError e with
        | .error te => (.error te, s', ev)
        | .ok msg =>
          (.ok ⟨none, some msg, input_text, selected_task, candidate_labels,
                model_override⟩, s', ev)
      match get_pipeline2 load selected_task s1 with
      | (.error e, s2, ev) => excepted e s2 ev
      | (.ok nlp, s2, ev) =>
        let finish (c : Call Pipe) :
            Except PyErr (Response2 Val) × St2 Pipe × List (Event Pipe) :=
          match run c with
          | .error e => excepted e s2 (ev ++ [.infer c])
          | .ok v =>
            (.ok ⟨some v, none, input_text, selected_task, candidate_labels,
                  model_override⟩, s2, ev ++ [.infer c])
        if selected_task = "sentiment-analysis" then
          finish (.sent nlp input_text)
        else if selected_task = "summarization" then
          finish (.summ nlp input_text 120 20 false)
        else if selected_task = "zero-shot-classification" then
          let labels := parseLabels candidate_labels
          if labels = [] then
            excepted (.valueError "Zero-shot requires at least one comma-separated label.") s2 ev
          else
            finish (.zeroShot nlp input_text labels)
        else
          excepted (.valueError ("Unsupported task: " ++ selected_task)) s2 ev
  else
    (.ok ⟨none, none, "", "sentiment-analysis", "", ""⟩, s, [])

/-! ## Spec-side definition for the label-parsing claim -/

/-- Keep the first occurrence of each element, drop later duplicates;
`seen` accumulates the elements already emitted. -/
def dedupFirstAux {α : Type} [DecidableEq α] (seen : List α) : List α → List α
  | [] => []
  | a :: l => if a ∈ seen then dedupFirstAux seen l else a :: dedupFirstAux (a :: seen) l

/-- The candidate-label list as the spec words it ("comma-separated, parsed
into a deduplicated-by-trim, order-preserving list"): the comma-separated
fields trimmed, empty fields removed, duplicates after trimming removed,
first occurrences kept in order.  To be compared with `parseLabels`, which is
what the source computes. -/
def parseLabelsSpec (s : String) : List String :=
  dedupFirstAux []
    ((pySplitComma s).filterMap fun l => if pyStrip l = "" then none else some (pyStrip l))

/-! ## Helper lemmas about the dictionary model and the cache -/

theorem alGet_alSet_self {κ α : Type} [DecidableEq κ] (k : κ) (v : α)
    (l : List (κ × α)) : alGet k (alSet k v l) = some v := by
  induction l with
  | nil => simp [alGet, alSet]
  | cons kv rest ih =>
    obtain ⟨k', v'⟩ := kv
    by_cases h : k' = k
    · simp [alGet, alSet, h]
    · simp [alGet, alSet, h, ih]

/-- `get_pipeline` of the second variant never touches `MODEL_CHOICES`. -/
theorem get_pipeline2_modelChoices {Pipe : Type}
    (load : String → String → Except PyErr Pipe) (task : String) (s : St2 Pipe) :
    ((get_pipeline2 load task s).2.1).modelChoices = s.modelChoices := by
  unfold get_pipeline2
  repeat' split
  all_goals rfl

/-- A failing `get_pipeline` call in the second variant leaves the whole
module state exactly as it was. -/
theorem get_pipeline2_error_state {Pipe : Type}
    (load : String → String → Except PyErr Pipe) (task : String)
    (s s' : St2 Pipe) (e : PyErr) (ev : List (Event Pipe))
    (h : get_pipeline2 load task s = (.error e, s', ev)) : s' = s := by
  unfold get_pipeline2 at h
  repeat' split at h
  all_goals simp_all

/-- A successful `get_pipeline` call in the second variant leaves the
returned object stored in the cache under the task key. -/
theorem get_pipeline2_ok_cached {Pipe : Type}
    (load : String → String → Except PyErr Pipe) (task : String)
    (s s' : St2 Pipe) (p : Pipe) (ev : List (Event Pipe))
    (h : get_pipeline2 load task s = (.ok p, s', ev)) :
    alGet task s'.pipelines = some p := by
  unfold get_pipeline2 at h
  repeat' split at h
  all_goals try simp_all
  all_goals (obtain ⟨h1, h2, h3⟩ := h; subst h1; subst h2; simp [alGet_alSet_self])

/-- A cache hit in the second variant returns the stored object and changes
nothing, whatever the loader and the model table are. -/
theorem get_pipeline2_hit {Pipe : Type}
    (load : String → String → Except PyErr Pipe) (task : String)
    (t : St2 Pipe) (p : Pipe) (h : alGet task t.pipelines = some p) :
    get_pipeline2 load task t = (.ok p, t, []) := by
  unfold get_pipeline2
  rw [h]

/-- A failing `get_pipeline` call in the first variant leaves the cache
exactly as it was. -/
theorem get_pipeline1_error_state {Pipe : Type}
    (load : String → String → Except PyErr Pipe) (task : Option String)
    (c c' : Cache1 Pipe) (e : PyErr) (ev : List (Event Pipe))
    (h : get_pipeline1 load task c = (.error e, c', ev)) : c' = c := by
  unfold get_pipeline1 at h
  simp only [] at h
  repeat' split at h
  all_goals simp_all

/-- A successful `get_pipeline` call in the first variant leaves the
returned object stored in the cache under the task key. -/
theorem get_pipeline1_ok_cached {Pipe : Type}
    (load : String → String → Except PyErr Pipe) (task : Option String)
    (c c' : Cache1 Pipe) (p : Pipe) (ev : List (Event Pipe))
    (h : get_pipeline1 load task c = (.ok p, c', ev)) :
    alGet task c' = some p := by
  unfold get_pipeline1 at h
  simp only [] at h
  repeat' split at h
  all_goals try simp_all
  all_goals (obtain ⟨h1, h2, h3⟩ := h; subst h1; subst h2; simp [alGet_alSet_self])

/-- A cache hit in the first variant returns the stored object and changes
nothing. -/
theorem get_pipeline1_hit {Pipe : Type}
    (load : String → String → Except PyErr Pipe) (task : Option String)
    (c : Cache1 Pipe) (p : Pipe) (h : alGet task c = some p) :
    get_pipeline1 load task c = (.ok p, c, []) := by
  unfold get_pipeline1
  rw [h]

/-! ## Claim theorems -/

/-- C5 (confirmed): for every supported task, calling `get_pipeline` again
with the same task key after a successful call returns exactly the object
stored by the first call, unchanged and with no load event, in both variants.
For the second variant the second call may run on any state `t` whose
pipeline cache equals the one the first call produced — in particular after
any `MODEL_CHOICES` override happened in the meantime — and with any loader. -/
theorem C5_cache_hit_returns_stored_object {Pipe : Type}
    (load load2 : String → String → Except PyErr Pipe)
    (task : String) (otask : Option String)
    (s s' t : St2 Pipe) (c c' : Cache1 Pipe)
    (p q : Pipe) (ev ev' : List (Event Pipe))
    (h2 : get_pipeline2 load task s = (.ok p, s', ev))
    (ht : t.pipelines = s'.pipelines)
    (h1 : get_pipeline1 load otask c = (.ok q, c', ev')) :
    get_pipeline2 load2 task t = (.ok p, t, []) ∧
    get_pipeline1 load2 otask c' = (.ok q, c', []) :=
  ⟨get_pipeline2_hit load2 task t p
      (by rw [ht]; exact get_pipeline2_ok_cached load task s s' p ev h2),
   get_pipeline1_hit load2 otask c' q
      (get_pipeline1_ok_cached load otask c c' q ev' h1)⟩

/-- Witness for C5 at a concrete instance: loading sentiment analysis (second
variant) and summarization (first variant) once, then fetching again with a
loader that would return a different object. -/
theorem C5_cache_hit_returns_stored_object_witness :
    get_pipeline2 (fun _ _ => Except.ok 2) "sentiment-analysis"
        (⟨[("sentiment-analysis", (1 : Nat))], MODEL_CHOICES⟩ : St2 Nat) =
      (.ok 1, ⟨[("sentiment-analysis", 1)], MODEL_CHOICES⟩, []) ∧
    get_pipeline1 (fun _ _ => Except.ok 2) (some "summarization")
        [(some "summarization", (1 : Nat))] =
      (.ok 1, [(some "summarization", 1)], []) :=
  C5_cache_hit_returns_stored_object
    (fun _ _ => Except.ok 1) (fun _ _ => Except.ok 2)
    "sentiment-analysis" (some "summarization")
    initSt2 ⟨[("sentiment-analysis", 1)], MODEL_CHOICES⟩
    ⟨[("sentiment-analysis", 1)], MODEL_CHOICES⟩
    [] [(some "summarization", 1)] 1 1
    [.load "sentiment-analysis" "distilbert-base-uncased-finetuned-sst-2-english"]
    [.load "summarization" "sshleifer/distilbart-cnn-12-6"]
    rfl rfl rfl

/-- C8 (confirmed): when pipeline construction fails in `get_pipeline`, the
error propagates to the caller and the cache is exactly what it was before
the call — no entry stored for the failed key, no entry evicted (shown for
both variants; the claim's source is the second). -/
theorem C8_failed_load_leaves_cache_unchanged {Pipe : Type}
    (load : String → String → Except PyErr Pipe)
    (task : String) (otask : Option String)
    (s s' : St2 Pipe) (c c' : Cache1 Pipe) (e e' : PyErr)
    (ev ev' : List (Event Pipe))
    (h2 : get_pipeline2 load task s = (.error e, s', ev))
    (h1 : get_pipeline1 load otask c = (.error e', c', ev')) :
    s' = s ∧ c' = c :=
  ⟨get_pipeline2_error_state load task s s' e ev h2,
   get_pipeline1_error_state load otask c c' e' ev' h1⟩

/-- Witness for C8 at a concrete instance: a loader that always fails, on the
initial states. -/
theorem C8_failed_load_leaves_cache_unchanged_witness :
    (initSt2 : St2 Nat) = initSt2 ∧ ([] : Cache1 Nat) = [] :=
  C8_failed_load_leaves_cache_unchanged
    (fun _ _ => Except.error (.other "model fetch failure"))
    "sentiment-analysis" (some "summarization")
    initSt2 initSt2 [] [] (.other "model fetch failure") (.other "model fetch failure")
    [.load "sentiment-analysis" "distilbert-base-uncased-finetuned-sst-2-english"]
    [.load "summarization" "sshleifer/distilbart-cnn-12-6"]
    rfl rfl

/-- C2 (code bug): a POST with non-empty input and the unsupported task
`"translation"` makes both handlers raise an uncaught exception instead of
returning a rendered error message.  The first variant's `get_pipeline`
stores nothing for the unknown key and `pipelines_cache[task]` raises
`KeyError`; the second variant raises `ValueError("Unknown task: ...")`,
catches it, and then the except-handler's own message construction
(line 164, a `str` plus a `list`) raises an uncaught `TypeError`. -/
theorem C2_unknown_task_uncaught_exception :
    index1 (fun _ _ => (Except.ok 0 : Except PyErr Nat))
        (fun _ => (Except.ok "out" : Except PyErr String))
        ⟨"POST", some "translation", some "hello", none, none⟩ [] =
      (.error (.keyError "translation"), [], []) ∧
    index2 (fun _ _ => (Except.ok 0 : Except PyErr Nat))
        (fun _ => (Except.ok "out" : Except PyErr String))
        ⟨"POST", some "translation", some "hello", none, none⟩ initSt2 =
      (.error (.typeError "can only concatenate str (not \"list\") to str"),
       initSt2, []) :=
  ⟨rfl, rfl⟩

/-- C3 (code bug): in the second variant, when pipeline loading raises, the
handler catches and logs the exception, but the user-facing rendering never
happens: building the message on line 164 concatenates a `str` with a `list`
and raises an uncaught `TypeError`, so the handler crashes instead of
rendering the error page. -/
theorem C3_except_block_raises_typeerror :
    index2 (fun _ _ => (Except.error (.other "model fetch failure") : Except PyErr Nat))
        (fun _ => (Except.ok "out" : Except PyErr String))
        ⟨"POST", some "sentiment-analysis", some "hi", none, none⟩ initSt2 =
      (.error (.typeError "can only concatenate str (not \"list\") to str"), initSt2,
       [.load "sentiment-analysis" "distilbert-base-uncased-finetuned-sst-2-english"]) :=
  rfl

/-- C4 counterexample: in the first variant, a zero-shot POST whose labels
string is whitespace-only does not error before inference — the pipeline is
loaded and then the inference callable IS called, with an empty
candidate-label list (`.infer (.zeroShot 0 "hi" [])` is in the trace),
refuting the claim's "in both variants". -/
theorem C4_counterexample :
    index1 (fun _ _ => (Except.ok 0 : Except PyErr Nat))
        (fun _ => (Except.ok "out" : Except PyErr String))
        ⟨"POST", some "zero-shot-classification", some "hi", some "  ,  ", none⟩ [] =
      (.ok ⟨some "out", "hi", some "zero-shot-classification", "  ,  "⟩,
       [(some "zero-shot-classification", 0)],
       [.load "zero-shot-classification" "facebook/bart-large-mnli",
        .infer (.zeroShot 0 "hi" [])]) ∧
    Event.infer (.zeroShot 0 "hi" []) ∈
      (index1 (fun _ _ => (Except.ok 0 : Except PyErr Nat))
        (fun _ => (Except.ok "out" : Except PyErr String))
        ⟨"POST", some "zero-shot-classification", some "hi", some "  ,  ", none⟩ []).2.2 :=
  ⟨rfl, by decide⟩

/-- C7 counterexample: the source's label parsing does not deduplicate —
on `"a,a"` it returns `["a", "a"]` while the spec's deduplicated-by-trim
list is `["a"]`. -/
theorem C7_counterexample : parseLabels "a,a" ≠ parseLabelsSpec "a,a" := by
  decide

/-- C7 (amended): the parsed candidate-label list consists of the
comma-separated fields trimmed of whitespace, with empty fields removed and
the original order of the fields preserved — duplicates are NOT removed
(both variants use this same parsing). -/
theorem C7_parsed_labels_are_trimmed_nonempty_fields_in_order (s : String) :
    parseLabels s = ((pySplitComma s).map pyStrip).filter (fun t => t ≠ "") := by
  unfold parseLabels
  generalize pySplitComma s = L
  induction L with
  | nil => rfl
  | cons a l ih =>
    by_cases h : pyStrip a = "" <;>
      simp [List.filterMap_cons, List.filter_cons, h, ih]

/-- C10 (confirmed): a GET request performs no load and no inference (empty
event trace) and leaves all cross-request state unchanged — the first
variant's cache and the second variant's cache and `MODEL_CHOICES` table are
exactly what they were; both handlers just render the empty form. -/
theorem C10_get_request_leaves_state_unchanged {Pipe Val Pipe' Val' : Type}
    (load : String → String → Except PyErr Pipe) (run : Call Pipe → Except PyErr Val)
    (load' : String → String → Except PyErr Pipe') (run' : Call Pipe' → Except PyErr Val')
    (req : Request) (c : Cache1 Pipe) (s : St2 Pipe')
    (h : req.method = "GET") :
    index1 load run req c = (.ok ⟨none, "", some "sentiment-analysis", ""⟩, c, []) ∧
    index2 load' run' req s = (.ok ⟨none, none, "", "sentiment-analysis", "", ""⟩, s, []) := by
  constructor
  · unfold index1
    rw [h]
    rfl
  · unfold index2
    rw [h]
    rfl

/-- Witness for C10 at a concrete GET request. -/
theorem C10_get_request_leaves_state_unchanged_witness :
    index1 (fun _ _ => (Except.ok 0 : Except PyErr Nat))
        (fun _ => (Except.ok "out" : Except PyErr String))
        ⟨"GET", none, none, none, none⟩ [(some "summarization", 3)] =
      (.ok ⟨none, "", some "sentiment-analysis", ""⟩, [(some "summarization", 3)], []) ∧
    index2 (fun _ _ => (Except.ok 0 : Except PyErr Nat))
        (fun _ => (Except.ok "out" : Except PyErr String))
        ⟨"GET", none, none, none, none⟩ initSt2 =
      (.ok ⟨none, none, "", "sentiment-analysis", "", ""⟩, initSt2, []) :=
  C10_get_request_leaves_state_unchanged
    (fun _ _ => Except.ok 0) (fun _ => Except.ok "out")
    (fun _ _ => Except.ok 0) (fun _ => Except.ok "out")
    ⟨"GET", none, none, none, none⟩ [(some "summarization", 3)] initSt2 rfl

/-- C1 counterexample: in the first variant, a POST whose `input_text` is
whitespace-only renders the ordinary page — `result` is `None` and the
response carries no message of any kind (the `Response1` fields are the
complete dynamic content of the template, which has no error block), so no
"please provide input" error is returned, refuting the claim's
"in both variants".  No pipeline is loaded and no inference occurs. -/
theorem C1_counterexample :
    index1 (fun _ _ => (Except.ok 0 : Except PyErr Nat))
        (fun _ => (Except.ok "out" : Except PyErr String))
        ⟨"POST", some "sentiment-analysis", some "   ", none, none⟩ [] =
      (.ok ⟨none, "   ", some "sentiment-analysis", ""⟩, [], []) :=
  rfl

/-- C1 (amended): for every POST request whose `input_text` is empty or
whitespace-only, no pipeline is loaded, no inference call occurs and the
cross-request state is unchanged, in both variants; the "Please provide some
input text." user error is returned by the second variant only — the first
variant renders the normal page with no result and no error message. -/
theorem C1_empty_input_no_inference {Pipe Val Pipe' Val' : Type}
    (load : String → String → Except PyErr Pipe) (run : Call Pipe → Except PyErr Val)
    (load' : String → String → Except PyErr Pipe') (run' : Call Pipe' → Except PyErr Val')
    (req : Request) (c : Cache1 Pipe) (s : St2 Pipe')
    (hm : req.method = "POST")
    (hin : pyStrip (req.input_text.getD "") = "") :
    index2 load' run' req s =
      (.ok ⟨none, some "Please provide some input text.", "",
            if req.task.getD "" = "" then "sentiment-analysis" else req.task.getD "",
            pyStrip (req.labels.getD ""), pyStrip (req.model_override.getD "")⟩, s, []) ∧
    index1 load run req c =
      (.ok ⟨none, req.input_text.getD "", req.task, req.labels.getD ""⟩, c, []) := by
  constructor
  · unfold index2
    rw [hm, hin]
    rfl
  · unfold index1
    rw [hm]
    simp only [hin]
    rfl

/-- Witness for C1 (amended) at a concrete whitespace-only POST. -/
theorem C1_empty_input_no_inference_witness :
    index2 (fun _ _ => (Except.ok 0 : Except PyErr Nat))
        (fun _ => (Except.ok "out" : Except PyErr String))
        ⟨"POST", some "zero-shot-classification", some "  ", some "x", some "m"⟩ initSt2 =
      (.ok ⟨none, some "Please provide some input text.", "",
            "zero-shot-classification", "x", "m"⟩, initSt2, []) ∧
    index1 (fun _ _ => (Except.ok 0 : Except PyErr Nat))
        (fun _ => (Except.ok "out" : Except PyErr String))
        ⟨"POST", some "zero-shot-classification", some "  ", some "x", some "m"⟩ [] =
      (.ok ⟨none, "  ", some "zero-shot-classification", "x"⟩, [], []) :=
  C1_empty_input_no_inference
    (fun _ _ => Except.ok 0) (fun _ => Except.ok "out")
    (fun _ _ => Except.ok 0) (fun _ => Except.ok "out")
    ⟨"POST", some "zero-shot-classification", some "  ", some "x", some "m"⟩
    [] initSt2 rfl rfl

/-- C9 (confirmed): in the second variant, a POST whose `task` field is
missing (`None`) or empty falls back to `"sentiment-analysis"`: the handler
behaves exactly as if `task` had been `"sentiment-analysis"` — same rendered
page or exception, same final state, same events. -/
theorem C9_missing_or_empty_task_defaults_to_sentiment {Pipe Val : Type}
    (load : String → String → Except PyErr Pipe) (run : Call Pipe → Except PyErr Val)
    (req : Request) (s : St2 Pipe)
    (h : req.task = none ∨ req.task = some "") :
    index2 load run req s =
      index2 load run { req with task := some "sentiment-analysis" } s := by
  obtain ⟨m, t, i, l, o⟩ := req
  rcases h with h | h <;> (simp only at h; subst h; rfl)

/-- Witness for C9 at a concrete POST with a missing task field. -/
theorem C9_missing_or_empty_task_defaults_to_sentiment_witness :
    index2 (fun _ _ => (Except.ok 0 : Except PyErr Nat))
        (fun _ => (Except.ok "out" : Except PyErr String))
        ⟨"POST", none, some "hi", none, none⟩ initSt2 =
      index2 (fun _ _ => Except.ok 0) (fun _ => Except.ok "out")
        ⟨"POST", some "sentiment-analysis", some "hi", none, none⟩ initSt2 :=
  C9_missing_or_empty_task_defaults_to_sentiment
    (fun _ _ => Except.ok 0) (fun _ => Except.ok "out")
    ⟨"POST", none, some "hi", none, none⟩ initSt2 (Or.inl rfl)

/-- On the POST path with non-blank input, the final state of the second
variant's handler is exactly the state produced by the `get_pipeline` call:
the override (when non-empty) is written into `MODEL_CHOICES` first, and
every later branch — success, caught-then-reraised exception, label error —
returns that state untouched. -/
theorem index2_final_state {Pipe Val : Type}
    (load : String → String → Except PyErr Pipe) (run : Call Pipe → Except PyErr Val)
    (req : Request) (s : St2 Pipe)
    (hm : req.method = "POST")
    (hin : pyStrip (req.input_text.getD "") ≠ "") :
    (index2 load run req s).2.1 =
      (get_pipeline2 load
        (if req.task.getD "" = "" then "sentiment-analysis" else req.task.getD "")
        (if pyStrip (req.model_override.getD "") ≠ "" then
          { s with modelChoices :=
              (alSet (if req.task.getD "" = "" then "sentiment-analysis" else req.task.getD "")
                (pyStrip (req.model_override.getD "")) s.modelChoices) }
         else s)).2.1 := by
  unfold index2
  rw [hm]
  simp only [hin, ite_true, ite_false, if_true, if_false, ne_eq, not_false_iff]
  repeat' split
  all_goals simp_all

/-- `get_pipeline` of the second variant emits load events only, never an
inference event. -/
theorem get_pipeline2_no_infer {Pipe : Type}
    (load : String → String → Except PyErr Pipe) (task : String) (s : St2 Pipe)
    (r : Except PyErr Pipe) (s' : St2 Pipe) (ev : List (Event Pipe))
    (h : get_pipeline2 load task s = (r, s', ev)) :
    ∀ x ∈ ev, x.isInfer = false := by
  have hall : ∀ x ∈ (get_pipeline2 load task s).2.2, x.isInfer = false := by
    unfold get_pipeline2
    repeat' split
    all_goals simp [Event.isInfer]
  rw [h] at hall
  exact hall

/-- C6 counterexample: in the second variant, a POST carrying the non-empty
`model_override` `"my-model"` but a whitespace-only `input_text` takes the
blank-input branch (`src/flask2.py` line 137) and returns before the
override write on line 144 is reached: the final state is the initial state
and `MODEL_CHOICES` does not map the selected task to the override,
refuting the claim as stated (which has no input-text qualification). -/
theorem C6_counterexample :
    ((index2 (fun _ _ => (Except.ok 0 : Except PyErr Nat))
        (fun _ => (Except.ok "out" : Except PyErr String))
        ⟨"POST", some "summarization", some "   ", none, some "my-model"⟩
        initSt2).2.1) = initSt2 ∧
    alGet "summarization"
        ((index2 (fun _ _ => (Except.ok 0 : Except PyErr Nat))
            (fun _ => (Except.ok "out" : Except PyErr String))
            ⟨"POST", some "summarization", some "   ", none, some "my-model"⟩
            initSt2).2.1).modelChoices ≠ some "my-model" :=
  ⟨rfl, by decide⟩

/-- C6 (amended): in the second variant, a POST carrying a non-empty
`model_override` whose input text is non-blank (so the processing branch
runs — a blank-input POST returns before the write, see the
counterexample) writes the stripped override into the shared
`MODEL_CHOICES` table under the selected task, whatever else the request
does: after the request the table maps the task to the override, and a
subsequent `get_pipeline` for that task (any request, any loader) that
misses the cache loads with the overridden model identifier. -/
theorem C6_override_mutates_shared_table_and_persists {Pipe Val : Type}
    (load load2 : String → String → Except PyErr Pipe) (run : Call Pipe → Except PyErr Val)
    (req : Request) (s : St2 Pipe) (tsel ov : String)
    (hm : req.method = "POST")
    (hin : pyStrip (req.input_text.getD "") ≠ "")
    (hts : tsel = (if req.task.getD "" = "" then "sentiment-analysis" else req.task.getD ""))
    (hov : ov = pyStrip (req.model_override.getD ""))
    (hne : ov ≠ "") :
    alGet tsel ((index2 load run req s).2.1).modelChoices = some ov ∧
    (alGet tsel ((index2 load run req s).2.1).pipelines = none →
      (tsel = "sentiment-analysis" ∨ tsel = "summarization" ∨
        tsel = "zero-shot-classification") →
      (get_pipeline2 load2 tsel ((index2 load run req s).2.1)).2.2 =
        [Event.load tsel ov]) := by
  subst hts
  subst hov
  have hst := index2_final_state load run req s hm hin
  have hmc1 : alGet (if req.task.getD "" = "" then "sentiment-analysis" else req.task.getD "")
      ((index2 load run req s).2.1).modelChoices =
      some (pyStrip (req.model_override.getD "")) := by
    rw [hst, get_pipeline2_modelChoices, if_pos hne]
    exact alGet_alSet_self _ _ _
  refine ⟨hmc1, ?_⟩
  intro hmiss hsupp
  unfold get_pipeline2
  simp only [hmiss, hmc1]
  rw [if_neg hne, if_pos hsupp]
  split <;> rfl

/-- Witness for C6: a summarization POST with override `"my-model"` whose
model download fails; the override survives in the table and the next fetch
for the task loads `"my-model"`. -/
theorem C6_override_mutates_shared_table_and_persists_witness :
    alGet "summarization"
        ((index2 (fun _ _ => (Except.error (.other "download failed") : Except PyErr Nat))
            (fun _ => (Except.ok "out" : Except PyErr String))
            ⟨"POST", some "summarization", some "hi", none, some "my-model"⟩
            initSt2).2.1).modelChoices = some "my-model" ∧
    (alGet "summarization"
        ((index2 (fun _ _ => (Except.error (.other "download failed") : Except PyErr Nat))
            (fun _ => (Except.ok "out" : Except PyErr String))
            ⟨"POST", some "summarization", some "hi", none, some "my-model"⟩
            initSt2).2.1).pipelines = none →
      ("summarization" = "sentiment-analysis" ∨ "summarization" = "summarization" ∨
        "summarization" = "zero-shot-classification") →
      (get_pipeline2 (fun _ _ => (Except.ok 5 : Except PyErr Nat)) "summarization"
          ((index2 (fun _ _ => (Except.error (.other "download failed") : Except PyErr Nat))
              (fun _ => (Except.ok "out" : Except PyErr String))
              ⟨"POST", some "summarization", some "hi", none, some "my-model"⟩
              initSt2).2.1)).2.2 =
        [Event.load "summarization" "my-model"]) :=
  C6_override_mutates_shared_table_and_persists
    (fun _ _ => Except.error (.other "download failed"))
    (fun _ _ => Except.ok 5)
    (fun _ => Except.ok "out")
    ⟨"POST", some "summarization", some "hi", none, some "my-model"⟩
    initSt2 "summarization" "my-model"
    rfl (by decide) rfl rfl (by decide)

/-- C4 (amended): for a zero-shot POST with non-empty input whose labels
string yields no non-empty trimmed label, the second variant raises
`ValueError` before the inference callable is invoked — the outcome is an
error and the event trace contains no inference call (though the pipeline
object itself is loaded first).  The first variant has no such check: after
a successful pipeline fetch it invokes the inference callable with the empty
candidate-label list. -/
theorem C4_zero_shot_empty_labels_errors_before_inference {Pipe Val Pipe' Val' : Type}
    (load : String → String → Except PyErr Pipe) (run : Call Pipe → Except PyErr Val)
    (load1 : String → String → Except PyErr Pipe') (run1 : Call Pipe' → Except PyErr Val')
    (req : Request) (s : St2 Pipe)
    (c c' : Cache1 Pipe') (nlp : Pipe') (ev1 : List (Event Pipe'))
    (hm : req.method = "POST")
    (htask : req.task = some "zero-shot-classification")
    (hin : pyStrip (req.input_text.getD "") ≠ "")
    (hlab2 : parseLabels (pyStrip (req.labels.getD "")) = [])
    (hlab1 : parseLabels (req.labels.getD "") = [])
    (h1 : get_pipeline1 load1 (some "zero-shot-classification") c = (.ok nlp, c', ev1)) :
    ((∃ e, (index2 load run req s).1 = .error e) ∧
      ∀ x ∈ (index2 load run req s).2.2, x.isInfer = false) ∧
    (index1 load1 run1 req c).2.2 =
      ev1 ++ [Event.infer (.zeroShot nlp (req.input_text.getD "") [])] := by
  constructor
  · unfold index2
    rw [hm]
    simp only [htask, Option.getD_some, hin, ne_eq, not_false_iff, ite_true, ite_false,
      if_true, if_false, hlab2]
    repeat' split
    all_goals try (exact ⟨⟨_, rfl⟩, get_pipeline2_no_infer _ _ _ _ _ _ (by assumption)⟩)
    all_goals simp_all [formatUserError]
  · unfold index1
    rw [hm]
    simp only [htask, h1, hlab1]
    repeat' split
    all_goals simp_all

/-- Witness for C4 (amended) at a concrete zero-shot POST with a
whitespace-only labels string. -/
theorem C4_zero_shot_empty_labels_errors_before_inference_witness :
    ((∃ e, (index2 (fun _ _ => (Except.ok 0 : Except PyErr Nat))
        (fun _ => (Except.ok "out" : Except PyErr String))
        ⟨"POST", some "zero-shot-classification", some "hi", some "  ,  ", none⟩
        initSt2).1 = .error e) ∧
      ∀ x ∈ (index2 (fun _ _ => (Except.ok 0 : Except PyErr Nat))
        (fun _ => (Except.ok "out" : Except PyErr String))
        ⟨"POST", some "zero-shot-classification", some "hi", some "  ,  ", none⟩
        initSt2).2.2, x.isInfer = false) ∧
    (index1 (fun _ _ => (Except.ok 0 : Except PyErr Nat))
        (fun _ => (Except.ok "out" : Except PyErr String))
        ⟨"POST", some "zero-shot-classification", some "hi", some "  ,  ", none⟩
        []).2.2 =
      [Event.load "zero-shot-classification" "facebook/bart-large-mnli"] ++
        [Event.infer (.zeroShot 0 "hi" [])] :=
  C4_zero_shot_empty_labels_errors_before_inference
    (fun _ _ => Except.ok 0) (fun _ => Except.ok "out")
    (fun _ _ => Except.ok 0) (fun _ => Except.ok "out")
    ⟨"POST", some "zero-shot-classification", some "hi", some "  ,  ", none⟩
    initSt2 [] [(some "zero-shot-classification", 0)] 0
    [Event.load "zero-shot-classification" "facebook/bart-large-mnli"]
    rfl rfl (by decide) (by decide) (by decide) rfl
